import Mathlib

/-
Verification of the AtLAST sensitivity calculator core against its
natural-language specification.

The development shallowly embeds the Python sources:
  * `src/atlast_sc/inputs.py`     — input models and the one-field validator
  * `src/atlast_sc/calculator.py` — the `Calculator` orchestrator, its
    derived-parameter pipeline, the sensitivity / integration-time solve
    operations, `reset`, and the `_check_input` name check.

Machine floats are modelled as real numbers; astropy `Quantity` values are
modelled as an SI magnitude paired with a display-unit tag drawn from the
closed set of units the calculator actually touches, so that `.to(...)`
conversions are explicit and exact.

Modules of the repository that the claims depend on but that are absent from
the source tree (the `atlast_sc` atmosphere / temperature / efficiency / SEFD
modules and the superseded `src/backend/sensitivity.py`) are modelled from the
specification; each such definition carries a doc comment saying so.
-/

noncomputable section

namespace AtlastSC

/-- Boltzmann constant in SI units (J/K), as used by `astropy.constants.k_B`. -/
def kB : ℝ := 1.380649e-23

/-- Speed of light in SI units (m/s), as used by `astropy.constants.c`. -/
def speedOfLight : ℝ := 299792458

/-- The closed set of display units the calculator manipulates.  `fluxSI` and
`timeSI` stand for the compound SI units astropy produces for the raw
sensitivity (W m⁻² Hz⁻¹) and raw integration-time expressions before the
explicit `.to(u.mJy)` / `.to(u.s)` conversions. -/
inductive SCUnit
  | jansky
  | mJy
  | second
  | hertz
  | gigahertz
  | kelvin
  | metre
  | micron
  | degree
  | fluxSI
  | timeSI
  deriving DecidableEq

/-- Scale of each display unit relative to its SI base unit. -/
def siScale : SCUnit → ℝ
  | SCUnit.jansky => 1e-26
  | SCUnit.mJy => 1e-29
  | SCUnit.second => 1
  | SCUnit.hertz => 1
  | SCUnit.gigahertz => 1e9
  | SCUnit.kelvin => 1
  | SCUnit.metre => 1
  | SCUnit.micron => 1e-6
  | SCUnit.degree => Real.pi / 180
  | SCUnit.fluxSI => 1
  | SCUnit.timeSI => 1

/-- Model of an astropy `Quantity`: an SI magnitude together with the display
unit it is currently expressed in.  The numeric value visible to callers is
`si / siScale unit`. -/
structure Qty where
  si : ℝ
  unit : SCUnit

/-- `Quantity.value`: the magnitude in the current display unit. -/
def Qty.value (q : Qty) : ℝ := q.si / siScale q.unit

/-- `Quantity.to(unit)`: exact unit conversion — the underlying physical
quantity is unchanged, only the display unit moves. -/
def Qty.to (q : Qty) (u : SCUnit) : Qty := { si := q.si, unit := u }

/-- `UserInput` / `DefaultInput` fields from `src/atlast_sc/inputs.py`
(`t_int`, `sensitivity`, `bandwidth`, `obs_freq`, `n_pol`, `weather`,
`elevation`). -/
structure UserInput where
  t_int : Qty
  sensitivity : Qty
  bandwidth : Qty
  obs_freq : Qty
  n_pol : ℝ
  weather : ℝ
  elevation : Qty

/-- `InstrumentSetup` fields from `src/atlast_sc/inputs.py`. -/
structure InstrumentSetup where
  g : ℝ
  surface_rms : Qty
  dish_radius : Qty
  T_amb : Qty
  T_rx : Qty
  eta_eff : ℝ
  eta_ill : ℝ
  eta_q : ℝ
  eta_spill : ℝ
  eta_block : ℝ
  eta_pol : ℝ
  eta_r : ℝ

/-- `CalculationInput` from `src/atlast_sc/inputs.py`: user input plus
instrument setup plus the fixed CMB temperature. -/
structure CalculationInputs where
  user_input : UserInput
  instrument_setup : InstrumentSetup
  T_cmb : Qty

/-- Default user-input values from `src/atlast_sc/inputs.py` (`DefaultInput`). -/
def defaultUserInput : UserInput :=
  { t_int := { si := 70, unit := SCUnit.second }
  , sensitivity := { si := 0, unit := SCUnit.mJy }
  , bandwidth := { si := 7.5e9, unit := SCUnit.gigahertz }
  , obs_freq := { si := 100e9, unit := SCUnit.gigahertz }
  , n_pol := 2
  , weather := 50
  , elevation := { si := 30 * (Real.pi / 180), unit := SCUnit.degree } }

/-- Default instrument-setup values from `src/atlast_sc/inputs.py`
(`InstrumentSetup`). -/
def defaultInstrumentSetup : InstrumentSetup :=
  { g := 1
  , surface_rms := { si := 25e-6, unit := SCUnit.micron }
  , dish_radius := { si := 25, unit := SCUnit.metre }
  , T_amb := { si := 270, unit := SCUnit.kelvin }
  , T_rx := { si := 50, unit := SCUnit.kelvin }
  , eta_eff := 0.80
  , eta_ill := 0.80
  , eta_q := 0.96
  , eta_spill := 0.95
  , eta_block := 0.94
  , eta_pol := 0.99
  , eta_r := 1 }

/-- Default merged calculation inputs (`CalculationInput` defaults). -/
def defaultCalculationInputs : CalculationInputs :=
  { user_input := defaultUserInput
  , instrument_setup := defaultInstrumentSetup
  , T_cmb := { si := 2.73, unit := SCUnit.kelvin } }

/-- `DerivedParams` from `atlast_sc.models`, as populated by
`Calculator._calculate_derived_parameters` (SI magnitudes). -/
structure DerivedParams where
  tau_atm : ℝ
  T_atm : ℝ
  T_rx : ℝ
  eta_a : ℝ
  eta_s : ℝ
  T_sys : ℝ
  sefd : ℝ
  area : ℝ

/-- Modelled from the spec: the table-driven atmospheric model
(`atlast_sc/atmosphere_params.py`, absent from the source tree) and the
receiver-temperature law (`atlast_sc/temperatures.py`, absent).  Both are
deterministic functions of the inputs; they are carried as explicit function
components so every theorem quantifies over them. -/
structure PhysicsModels where
  atmTatm : ℝ → ℝ → ℝ → ℝ
  atmTau : ℝ → ℝ → ℝ → ℝ
  recvT : ℝ → ℝ

/-- Modelled from the spec (`atlast_sc/efficiencies.py` is absent from the
source tree): aperture efficiency via the Ruze equation,
`eta_a = eta_ill * exp(-(4*pi*surface_rms/wavelength)^2)` with
`wavelength = c / freq`. -/
def eta_a_calc (eta_ill obs_freq surface_rms : ℝ) : ℝ :=
  eta_ill * Real.exp (-(4 * Real.pi * surface_rms / (speedOfLight / obs_freq)) ^ 2)

/-- Modelled from the spec (`atlast_sc/efficiencies.py` is absent): combined
efficiency as the product of the spillover, blockage, polarization and
radiation-resistance terms (the four terms `Calculator` passes to
`Efficiencies`). -/
def eta_s_calc (eta_spill eta_block eta_pol eta_r : ℝ) : ℝ :=
  eta_spill * eta_block * eta_pol * eta_r

/-- Modelled from the spec (`atlast_sc/temperatures.py` is absent): system
temperature
`T_sys = T_rx/g + T_cmb*exp(-tau) + T_atm*(1-exp(-tau)) + (1-eta_eff)/eta_eff * T_amb`. -/
def system_temperature (T_rx g T_cmb T_atm T_amb tau_atm eta_eff : ℝ) : ℝ :=
  T_rx / g + T_cmb * Real.exp (-tau_atm) + T_atm * (1 - Real.exp (-tau_atm))
    + (1 - eta_eff) / eta_eff * T_amb

/-- Modelled from the spec (`atlast_sc/sefd.py` and
`src/functions/calculations.py` are absent from the source tree; the formula
is fixed by the spec and by `src/testing/test_sefd.py`):
`SEFD = 2 * k_B * T_sys / (area * eta_a)`. -/
def SEFD.calculate (T_sys area eta_a : ℝ) : ℝ :=
  2 * kB * T_sys / (area * eta_a)

/-- `Calculator._calculate_derived_parameters` from
`src/atlast_sc/calculator.py`: atmosphere lookup, efficiencies, temperatures,
dish area and SEFD, assembled into `DerivedParams`. -/
def calculateDerivedParameters (pm : PhysicsModels) (ci : CalculationInputs) :
    DerivedParams :=
  let T_atm := pm.atmTatm ci.user_input.obs_freq.si ci.user_input.weather
      ci.user_input.elevation.si
  let tau_atm := pm.atmTau ci.user_input.obs_freq.si ci.user_input.weather
      ci.user_input.elevation.si
  let eta_a := eta_a_calc ci.instrument_setup.eta_ill ci.user_input.obs_freq.si
      ci.instrument_setup.surface_rms.si
  let eta_s := eta_s_calc ci.instrument_setup.eta_spill
      ci.instrument_setup.eta_block ci.instrument_setup.eta_pol
      ci.instrument_setup.eta_r
  let T_rx := pm.recvT ci.user_input.obs_freq.si
  let T_sys := system_temperature T_rx ci.instrument_setup.g ci.T_cmb.si T_atm
      ci.instrument_setup.T_amb.si tau_atm ci.instrument_setup.eta_eff
  let area := Real.pi * ci.instrument_setup.dish_radius.si ^ 2
  let sefd := SEFD.calculate T_sys area eta_a
  { tau_atm := tau_atm, T_atm := T_atm, T_rx := T_rx, eta_a := eta_a
  , eta_s := eta_s, T_sys := T_sys, sefd := sefd, area := area }

/-- The `Calculator` state from `src/atlast_sc/calculator.py`: the physics
models fixed at start-up, the originally merged inputs retained for `reset`
(modelled from the spec: `atlast_sc/config.py` is absent; the spec says
`reset()` restores the originally merged, pre-mutation snapshot), the current
inputs, and the stored derived parameters. -/
structure Calculator where
  pm : PhysicsModels
  originalInputs : CalculationInputs
  inputs : CalculationInputs
  derived : DerivedParams

/-- `Calculator.__init__` (after the input-name check): store the merged
configuration and compute the derived parameters. -/
def Calculator.construct (pm : PhysicsModels) (ci : CalculationInputs) :
    Calculator :=
  { pm := pm, originalInputs := ci, inputs := ci
  , derived := calculateDerivedParameters pm ci }

/-- The `bandwidth` setter (decorated with `validate_and_update_params`:
modelled from the spec — `Decorators` is absent from `src/atlast_sc/utils.py`
— every such setter re-runs the full derivation before returning). -/
def Calculator.set_bandwidth (c : Calculator) (v : Qty) : Calculator :=
  let ci := { c.inputs with user_input := { c.inputs.user_input with bandwidth := v } }
  { c with inputs := ci, derived := calculateDerivedParameters c.pm ci }

/-- The `obs_freq` setter (`validate_and_update_params`). -/
def Calculator.set_obs_freq (c : Calculator) (v : Qty) : Calculator :=
  let ci := { c.inputs with user_input := { c.inputs.user_input with obs_freq := v } }
  { c with inputs := ci, derived := calculateDerivedParameters c.pm ci }

/-- The `n_pol` setter (`validate_and_update_params`). -/
def Calculator.set_n_pol (c : Calculator) (v : ℝ) : Calculator :=
  let ci := { c.inputs with user_input := { c.inputs.user_input with n_pol := v } }
  { c with inputs := ci, derived := calculateDerivedParameters c.pm ci }

/-- The `weather` setter (`validate_and_update_params`). -/
def Calculator.set_weather (c : Calculator) (v : ℝ) : Calculator :=
  let ci := { c.inputs with user_input := { c.inputs.user_input with weather := v } }
  { c with inputs := ci, derived := calculateDerivedParameters c.pm ci }

/-- The `elevation` setter (`validate_and_update_params`). -/
def Calculator.set_elevation (c : Calculator) (v : Qty) : Calculator :=
  let ci := { c.inputs with user_input := { c.inputs.user_input with elevation := v } }
  { c with inputs := ci, derived := calculateDerivedParameters c.pm ci }

/-- The `dish_radius` setter (`validate_and_update_params`). -/
def Calculator.set_dish_radius (c : Calculator) (v : Qty) : Calculator :=
  let ci := { c.inputs with
    instrument_setup := { c.inputs.instrument_setup with dish_radius := v } }
  { c with inputs := ci, derived := calculateDerivedParameters c.pm ci }

/-- The `sensitivity` setter (decorated with `validate_update` only: it stores
the value and its unit but does not re-run the derivation). -/
def Calculator.set_sensitivity (c : Calculator) (v : Qty) : Calculator :=
  { c with inputs := { c.inputs with
      user_input := { c.inputs.user_input with sensitivity := v } } }

/-- The `t_int` setter (decorated with `validate_update` only). -/
def Calculator.set_t_int (c : Calculator) (v : Qty) : Calculator :=
  { c with inputs := { c.inputs with
      user_input := { c.inputs.user_input with t_int := v } } }

/-- The `t_int` property getter: a plain read, returning the stored value and
leaving the state untouched. -/
def Calculator.get_t_int (c : Calculator) : Qty × Calculator :=
  (c.inputs.user_input.t_int, c)

/-- The `sensitivity` property getter: a plain read. -/
def Calculator.get_sensitivity (c : Calculator) : Qty × Calculator :=
  (c.inputs.user_input.sensitivity, c)

/-- `Calculator.calculate_sensitivity` from `src/atlast_sc/calculator.py`:
defaults `t_int` to the stored value, computes
`sefd / (eta_s * sqrt(n_pol * bandwidth * t_int))`, converts the result to
mJy, and (when `update_calculator`) writes it back through the `sensitivity`
setter. -/
def Calculator.calculate_sensitivity (c : Calculator) (tOpt : Option Qty)
    (update_calculator : Bool) : Qty × Calculator :=
  let t_int := tOpt.getD (c.get_t_int).1
  let raw : Qty :=
    { si := c.derived.sefd /
        (c.derived.eta_s *
          Real.sqrt (c.inputs.user_input.n_pol * c.inputs.user_input.bandwidth.si * t_int.si))
    , unit := SCUnit.fluxSI }
  let sensitivity := raw.to SCUnit.mJy
  let c2 := if update_calculator then c.set_sensitivity sensitivity else c
  (sensitivity, c2)

/-- `Calculator.calculate_t_integration` from `src/atlast_sc/calculator.py`:
defaults `sensitivity` to the stored value, computes
`(sefd / (sensitivity * eta_s))^2 / (n_pol * bandwidth)`, converts the result
to seconds, and (when `update_calculator`) writes it back through the `t_int`
setter. -/
def Calculator.calculate_t_integration (c : Calculator) (sOpt : Option Qty)
    (update_calculator : Bool) : Qty × Calculator :=
  let sensitivity := sOpt.getD (c.get_sensitivity).1
  let raw : Qty :=
    { si := (c.derived.sefd / (sensitivity.si * c.derived.eta_s)) ^ 2 /
        (c.inputs.user_input.n_pol * c.inputs.user_input.bandwidth.si)
    , unit := SCUnit.timeSI }
  let t_int := raw.to SCUnit.second
  let c2 := if update_calculator then c.set_t_int t_int else c
  (t_int, c2)

/-- `Calculator.reset` from `src/atlast_sc/calculator.py`: restore the
original inputs and recompute the derived parameters. -/
def Calculator.reset (c : Calculator) : Calculator :=
  { c with
      inputs := c.originalInputs,
      derived := calculateDerivedParameters c.pm c.originalInputs }

/-- Error taxonomy relevant to the claims: the unknown-parameter-name error
raised by `Calculator._check_input` and the mutual-exclusivity error raised
by `DefaultInput.validate_one_field_has_value`. -/
inductive CalcError
  | unknownParam (name : String)
  | invalidInput
  deriving DecidableEq

/-- Modelled from the spec: the field names of the `UserInput` model
(`atlast_sc/models.py` is absent from the source tree; the names are fixed by
`DefaultInput` in `src/atlast_sc/inputs.py` and by the web client payload). -/
def userInputNames : List String :=
  ["t_int", "sensitivity", "bandwidth", "obs_freq", "n_pol", "weather",
   "elevation"]

/-- `Calculator._check_input` from `src/atlast_sc/calculator.py`: walk the
user-supplied parameter names and raise on the first one that is not a field
of the `UserInput` model. -/
def _check_input : List String → Except CalcError Unit
  | [] => Except.ok ()
  | p :: rest =>
    if p ∈ userInputNames then _check_input rest
    else Except.error (CalcError.unknownParam p)

/-- `DefaultInput.validate_one_field_has_value` from
`src/atlast_sc/inputs.py`: reject the input when both `t_int` and
`sensitivity` are non-zero, and also when both are zero. -/
def validate_one_field_has_value (t_int sensitivity : ℝ) :
    Except CalcError (ℝ × ℝ) :=
  if (t_int ≠ 0 ∧ sensitivity ≠ 0) ∨ (t_int = 0 ∧ sensitivity = 0) then
    Except.error CalcError.invalidInput
  else
    Except.ok (t_int, sensitivity)

/-- Dictionary lookup with default, the `dict.get(key, default)` merge step
used when building the configuration. -/
def lookupD (m : List (String × ℝ)) (k : String) (d : ℝ) : ℝ :=
  match m.find? (fun p => p.1 == k) with
  | some p => p.2
  | none => d

/-- The merged magnitudes the configuration layer assembles: defaults
overridden per-field by the user input (user-settable fields) and by the
instrument setup (instrument fields).  Unknown keys in either mapping are
simply never looked up, mirroring the `dict.get` merge in
`src/src/configs/config.py`. -/
structure MergedInputs where
  t_int : ℝ
  sensitivity : ℝ
  bandwidth : ℝ
  obs_freq : ℝ
  n_pol : ℝ
  weather : ℝ
  elevation : ℝ
  dish_radius : ℝ
  surface_rms : ℝ

/-- Per-field merge of defaults, user input and instrument setup. -/
def mergeInputs (user inst : List (String × ℝ)) : MergedInputs :=
  { t_int := lookupD user "t_int" 70
  , sensitivity := lookupD user "sensitivity" 0
  , bandwidth := lookupD user "bandwidth" 7.5
  , obs_freq := lookupD user "obs_freq" 100
  , n_pol := lookupD user "n_pol" 2
  , weather := lookupD user "weather" 50
  , elevation := lookupD user "elevation" 30
  , dish_radius := lookupD inst "dish_radius" 25
  , surface_rms := lookupD inst "surface_rms" 25 }

/-- The configuration construction (`Config(user_input, instrument_setup)` in
`Calculator.__init__`): merge, then run the pydantic one-field validator on
the merged `t_int` / `sensitivity` pair. -/
def configInit (user inst : List (String × ℝ)) : Except CalcError MergedInputs :=
  let m := mergeInputs user inst
  (validate_one_field_has_value m.t_int m.sensitivity).map (fun _ => m)

/-- `Calculator.__init__` at the dictionary level: `_check_input` is applied
to the user input only, then the configuration is built. -/
def calculatorInit (user inst : List (String × ℝ)) :
    Except CalcError MergedInputs :=
  (_check_input (user.map Prod.fst)).bind (fun _ => configInit user inst)

/-- Transcription of the spec formula
`sensitivity(t_int) = SEFD / (eta_s * sqrt(n_pol * bandwidth * t_int)) * exp(tau_atm)`
(spec section 4.7), kept verbatim for comparison with the code. -/
def specSensitivity (sefd tau_atm eta_s n_pol bandwidth t_int : ℝ) : ℝ :=
  sefd / (eta_s * Real.sqrt (n_pol * bandwidth * t_int)) * Real.exp tau_atm

/-- Transcription of the spec formula
`t_integration(sensitivity) = (SEFD * exp(tau_atm) / (sensitivity * eta_s))^2 / (n_pol * bandwidth)`
(spec section 4.7), kept verbatim for comparison with the code. -/
def specTIntegration (sefd tau_atm eta_s n_pol bandwidth sensitivity : ℝ) : ℝ :=
  (sefd * Real.exp tau_atm / (sensitivity * eta_s)) ^ 2 / (n_pol * bandwidth)

/-- Physics models realizing the test configuration of
`src/tests/test_sensitivity.py`: line-of-sight opacity 0.7, and a receiver
temperature chosen so the derivation pipeline yields `sefd = 10 * k_B`. -/
def examplePM : PhysicsModels :=
  { atmTatm := fun _ _ _ => 0
  , atmTau := fun _ _ _ => 0.7
  , recvT := fun _ => 3125 * Real.pi }

/-- Inputs realizing the test configuration of
`src/tests/test_sensitivity.py`: bandwidth 7.5 GHz, one polarization, a
perfect dish (so `eta_a = eta_s = 1`) of radius 25 m, and temperatures chosen
so the derivation pipeline yields `sefd = 10 * k_B`. -/
def exampleInputs : CalculationInputs :=
  { user_input :=
    { t_int := { si := 70, unit := SCUnit.second }
    , sensitivity := { si := 0, unit := SCUnit.mJy }
    , bandwidth := { si := 7.5e9, unit := SCUnit.gigahertz }
    , obs_freq := { si := 100e9, unit := SCUnit.gigahertz }
    , n_pol := 1
    , weather := 50
    , elevation := { si := 30 * (Real.pi / 180), unit := SCUnit.degree } }
  , instrument_setup :=
    { g := 1
    , surface_rms := { si := 0, unit := SCUnit.micron }
    , dish_radius := { si := 25, unit := SCUnit.metre }
    , T_amb := { si := 270, unit := SCUnit.kelvin }
    , T_rx := { si := 50, unit := SCUnit.kelvin }
    , eta_eff := 1
    , eta_ill := 1
    , eta_q := 0.96
    , eta_spill := 1
    , eta_block := 1
    , eta_pol := 1
    , eta_r := 1 }
  , T_cmb := { si := 0, unit := SCUnit.kelvin } }

/-- The calculator built on the example configuration. -/
def exampleCalc : Calculator := Calculator.construct examplePM exampleInputs

theorem exampleCalc_derived :
    exampleCalc.derived =
      { tau_atm := 0.7, T_atm := 0, T_rx := 3125 * Real.pi, eta_a := 1
      , eta_s := 1, T_sys := 3125 * Real.pi, sefd := 10 * kB
      , area := Real.pi * 25 ^ 2 } := by
  have hpi : Real.pi ≠ 0 := Real.pi_ne_zero
  simp only [exampleCalc, Calculator.construct, calculateDerivedParameters,
    examplePM, exampleInputs, eta_a_calc, eta_s_calc, system_temperature,
    SEFD.calculate]
  norm_num [Real.exp_zero]
  field_simp
  ring

theorem exampleCalc_inputs : exampleCalc.inputs = exampleInputs := rfl

theorem sqrt75e9_gt : (86602 : ℝ) < Real.sqrt 7.5e9 :=
  (Real.lt_sqrt (by norm_num)).mpr (by norm_num)

theorem sqrt75e9_lt : Real.sqrt 7.5e9 < 86603 :=
  (Real.sqrt_lt' (by norm_num)).mpr (by norm_num)

theorem exampleSensitivity_si :
    ((exampleCalc.calculate_sensitivity
        (some { si := 1, unit := SCUnit.second }) true).1).si
      = 10 * kB / Real.sqrt 7.5e9 := by
  simp only [Calculator.calculate_sensitivity, Option.getD, Qty.to,
    exampleCalc_derived, exampleCalc_inputs, exampleInputs]
  norm_num

theorem exampleTIntegration_si :
    ((exampleCalc.calculate_t_integration
        (some { si := 1.5e-30, unit := SCUnit.jansky }) true).1).si
      = (10 * kB / 1.5e-30) ^ 2 / 7.5e9 := by
  simp only [Calculator.calculate_t_integration, Option.getD, Qty.to,
    exampleCalc_derived, exampleCalc_inputs, exampleInputs]
  norm_num

/-- Claim C1 (counterexample): at the test configuration of
`src/tests/test_sensitivity.py` — bandwidth 7.5 GHz, `tau_atm = 0.7`,
`sefd = 10*k_B`, `n_pol = 1`, `eta_s = 1`, `t_int = 1 s`, all realized
through the real derivation pipeline — `Calculator.calculate_sensitivity`
does not return `SEFD / (eta_s * sqrt(n_pol * bandwidth * t_int)) *
exp(tau_atm)`: the code has no `exp(tau_atm)` factor, and the value it
returns is below 0.16 Jy, not approximately 0.321 Jy. -/
theorem C1_counterexample :
    ((exampleCalc.calculate_sensitivity
        (some { si := 1, unit := SCUnit.second }) true).1).si
      ≠ specSensitivity (10 * kB) 0.7 1 1 7.5e9 1
    ∧ (((exampleCalc.calculate_sensitivity
        (some { si := 1, unit := SCUnit.second }) true).1).to
          SCUnit.jansky).value < 0.16 := by
  have hs : (0 : ℝ) < Real.sqrt 7.5e9 := Real.sqrt_pos.mpr (by norm_num)
  have hA : (0 : ℝ) < 10 * kB / Real.sqrt 7.5e9 :=
    div_pos (by norm_num [kB]) hs
  constructor
  · rw [exampleSensitivity_si]
    have hspec : specSensitivity (10 * kB) 0.7 1 1 7.5e9 1
        = 10 * kB / Real.sqrt 7.5e9 * Real.exp 0.7 := by
      simp only [specSensitivity]
      norm_num
    rw [hspec]
    have hexp : (1 : ℝ) < Real.exp 0.7 := Real.one_lt_exp_iff.mpr (by norm_num)
    exact ne_of_lt (lt_mul_of_one_lt_right hA hexp)
  · show ((exampleCalc.calculate_sensitivity
        (some { si := 1, unit := SCUnit.second }) true).1).si
          / siScale SCUnit.jansky < 0.16
    rw [exampleSensitivity_si, div_div]
    simp only [siScale]
    rw [div_lt_iff₀ (by positivity)]
    have hgt := sqrt75e9_gt
    norm_num [kB]
    nlinarith [hgt]

/-- Claim C1 (amended): for every calculator state and every supplied
integration time, `Calculator.calculate_sensitivity` returns
`SEFD / (eta_s * sqrt(n_pol * bandwidth * t_int))` — with no `exp(tau_atm)`
factor — converted to mJy; at the test configuration (bandwidth 7.5 GHz,
`tau_atm = 0.7`, `sefd = 10*k_B`, `n_pol = 1`, `eta_s = 1`, `t_int = 1 s`)
the result is approximately 0.1594 Jy, which is the claimed 0.321039735 Jy
divided by `exp(0.7)`. -/
theorem C1_sensitivity_formula (c : Calculator) (tq : Qty) (upd : Bool) :
    ((c.calculate_sensitivity (some tq) upd).1).si
      = c.derived.sefd / (c.derived.eta_s * Real.sqrt
          (c.inputs.user_input.n_pol * c.inputs.user_input.bandwidth.si * tq.si))
    ∧ ((c.calculate_sensitivity (some tq) upd).1).unit = SCUnit.mJy
    ∧ 0.159 < (((exampleCalc.calculate_sensitivity
          (some { si := 1, unit := SCUnit.second }) true).1).to
            SCUnit.jansky).value
    ∧ (((exampleCalc.calculate_sensitivity
          (some { si := 1, unit := SCUnit.second }) true).1).to
            SCUnit.jansky).value < 0.16 := by
  refine ⟨rfl, rfl, ?_, ?_⟩
  · show (0.159 : ℝ) < ((exampleCalc.calculate_sensitivity
        (some { si := 1, unit := SCUnit.second }) true).1).si
          / siScale SCUnit.jansky
    rw [exampleSensitivity_si, div_div]
    simp only [siScale]
    rw [lt_div_iff₀ (by positivity)]
    have hlt := sqrt75e9_lt
    norm_num [kB]
    nlinarith [hlt]
  · show ((exampleCalc.calculate_sensitivity
        (some { si := 1, unit := SCUnit.second }) true).1).si
          / siScale SCUnit.jansky < 0.16
    rw [exampleSensitivity_si, div_div]
    simp only [siScale]
    rw [div_lt_iff₀ (by positivity)]
    have hgt := sqrt75e9_gt
    norm_num [kB]
    nlinarith [hgt]

/-- Claim C2 (counterexample): at the test configuration of
`src/tests/test_sensitivity.py` — bandwidth 7.5 GHz, `tau_atm = 0.7`,
`sefd = 10*k_B`, `n_pol = 1`, `eta_s = 1`, sensitivity `15e-5` Jy —
`Calculator.calculate_t_integration` does not return
`(SEFD * exp(tau_atm) / (s * eta_s))^2 / (n_pol * bandwidth)`: the code has
no `exp(tau_atm)` factor, and the value it returns is below 1.2e6 s, not
approximately 4,580,733.84 s. -/
theorem C2_counterexample :
    ((exampleCalc.calculate_t_integration
        (some { si := 1.5e-30, unit := SCUnit.jansky }) true).1).si
      ≠ specTIntegration (10 * kB) 0.7 1 1 7.5e9 1.5e-30
    ∧ ((exampleCalc.calculate_t_integration
        (some { si := 1.5e-30, unit := SCUnit.jansky }) true).1).value
      < 1.2e6 := by
  constructor
  · rw [exampleTIntegration_si]
    have hspec : specTIntegration (10 * kB) 0.7 1 1 7.5e9 1.5e-30
        = (10 * kB / 1.5e-30) ^ 2 / 7.5e9 * Real.exp 0.7 ^ 2 := by
      simp only [specTIntegration]
      ring
    rw [hspec]
    have hA : (0 : ℝ) < (10 * kB / 1.5e-30) ^ 2 / 7.5e9 := by
      norm_num [kB]
    have hexp : (1 : ℝ) < Real.exp 0.7 ^ 2 :=
      one_lt_pow₀ (Real.one_lt_exp_iff.mpr (by norm_num)) (by norm_num)
    exact ne_of_lt (lt_mul_of_one_lt_right hA hexp)
  · show ((exampleCalc.calculate_t_integration
        (some { si := 1.5e-30, unit := SCUnit.jansky }) true).1).si
          / siScale SCUnit.second < 1.2e6
    rw [exampleTIntegration_si]
    simp only [siScale]
    norm_num [kB]

/-- Claim C2 (amended): for every calculator state and every supplied
sensitivity, `Calculator.calculate_t_integration` returns
`(SEFD / (sensitivity * eta_s))^2 / (n_pol * bandwidth)` — with no
`exp(tau_atm)` factor — converted to seconds; at the test configuration
(bandwidth 7.5 GHz, `tau_atm = 0.7`, `sefd = 10*k_B`, `n_pol = 1`,
`eta_s = 1`, sensitivity `15e-5` Jy) the result is approximately 1.1296e6 s,
which is the claimed 4,580,733.84 s divided by `exp(1.4)`. -/
theorem C2_t_integration_formula (c : Calculator) (sq : Qty) (upd : Bool) :
    ((c.calculate_t_integration (some sq) upd).1).si
      = (c.derived.sefd / (sq.si * c.derived.eta_s)) ^ 2 /
          (c.inputs.user_input.n_pol * c.inputs.user_input.bandwidth.si)
    ∧ ((c.calculate_t_integration (some sq) upd).1).unit = SCUnit.second
    ∧ 1.1295e6 < ((exampleCalc.calculate_t_integration
          (some { si := 1.5e-30, unit := SCUnit.jansky }) true).1).value
    ∧ ((exampleCalc.calculate_t_integration
          (some { si := 1.5e-30, unit := SCUnit.jansky }) true).1).value
      < 1.1297e6 := by
  refine ⟨rfl, rfl, ?_, ?_⟩
  · show (1.1295e6 : ℝ) < ((exampleCalc.calculate_t_integration
        (some { si := 1.5e-30, unit := SCUnit.jansky }) true).1).si
          / siScale SCUnit.second
    rw [exampleTIntegration_si]
    simp only [siScale]
    norm_num [kB]
  · show ((exampleCalc.calculate_t_integration
        (some { si := 1.5e-30, unit := SCUnit.jansky }) true).1).si
          / siScale SCUnit.second < 1.1297e6
    rw [exampleTIntegration_si]
    simp only [siScale]
    norm_num [kB]

/-- Claim C3: for every calculator state with positive `sefd`, `eta_s`,
`n_pol` and `bandwidth`, and every integration time `t_int > 0`, composing
the two solve operations round-trips:
`calculate_t_integration(calculate_sensitivity(t_int))` returns `t_int`
within a relative tolerance of 1% (in fact exactly), for either value of the
`update_calculator` flag on each call. -/
theorem C3_roundtrip (c : Calculator) (tq : Qty) (u1 u2 : Bool)
    (hsefd : 0 < c.derived.sefd) (hetas : 0 < c.derived.eta_s)
    (hnpol : 0 < c.inputs.user_input.n_pol)
    (hbw : 0 < c.inputs.user_input.bandwidth.si)
    (ht : 0 < tq.si) :
    |((((c.calculate_sensitivity (some tq) u1).2).calculate_t_integration
        (some (c.calculate_sensitivity (some tq) u1).1) u2).1).si - tq.si|
      ≤ 0.01 * tq.si := by
  have hNBT : 0 < c.inputs.user_input.n_pol *
      c.inputs.user_input.bandwidth.si * tq.si := by positivity
  have hsq : (0 : ℝ) < Real.sqrt (c.inputs.user_input.n_pol *
      c.inputs.user_input.bandwidth.si * tq.si) := Real.sqrt_pos.mpr hNBT
  have key : (c.derived.sefd /
        (c.derived.sefd / (c.derived.eta_s * Real.sqrt
            (c.inputs.user_input.n_pol * c.inputs.user_input.bandwidth.si * tq.si))
          * c.derived.eta_s)) ^ 2 /
      (c.inputs.user_input.n_pol * c.inputs.user_input.bandwidth.si) = tq.si := by
    have h1 : c.derived.sefd /
        (c.derived.sefd / (c.derived.eta_s * Real.sqrt
            (c.inputs.user_input.n_pol * c.inputs.user_input.bandwidth.si * tq.si))
          * c.derived.eta_s)
        = Real.sqrt (c.inputs.user_input.n_pol *
            c.inputs.user_input.bandwidth.si * tq.si) := by
      field_simp
      ring
    rw [h1, Real.sq_sqrt hNBT.le]
    field_simp
  cases u1 <;>
    simp only [Calculator.calculate_sensitivity, Calculator.calculate_t_integration,
      Calculator.set_sensitivity, Calculator.get_t_int, Calculator.get_sensitivity,
      Qty.to, Option.getD, Bool.false_eq_true, if_true, if_false, ite_true,
      ite_false] <;>
    rw [key, sub_self, abs_zero] <;>
    positivity

/-- Witness for claim C3: the round-trip property instantiated at the test
configuration with `t_int = 1 s` and both `update_calculator` flags true. -/
theorem C3_roundtrip_witness :
    |((((exampleCalc.calculate_sensitivity
          (some { si := 1, unit := SCUnit.second }) true).2).calculate_t_integration
        (some (exampleCalc.calculate_sensitivity
          (some { si := 1, unit := SCUnit.second }) true).1) true).1).si
        - ({ si := 1, unit := SCUnit.second } : Qty).si|
      ≤ 0.01 * ({ si := 1, unit := SCUnit.second } : Qty).si :=
  C3_roundtrip exampleCalc { si := 1, unit := SCUnit.second } true true
    (by rw [exampleCalc_derived]; norm_num [kB])
    (by rw [exampleCalc_derived]; norm_num)
    (by rw [exampleCalc_inputs]; norm_num [exampleInputs])
    (by rw [exampleCalc_inputs]; norm_num [exampleInputs])
    (by norm_num)

/-- Claim C4: the calculation-input validator fails with the invalid-input
error exactly when both `t_int` and `sensitivity` are non-zero or both are
zero, and construction succeeds exactly when one of the two is non-zero and
the other zero. -/
theorem C4_one_field_validation (t s : ℝ) :
    (validate_one_field_has_value t s = Except.error CalcError.invalidInput
      ↔ (t ≠ 0 ∧ s ≠ 0) ∨ (t = 0 ∧ s = 0))
    ∧ ((∃ p, validate_one_field_has_value t s = Except.ok p)
      ↔ (t ≠ 0 ∧ s = 0) ∨ (t = 0 ∧ s ≠ 0)) := by
  by_cases ht : t = 0 <;> by_cases hs : s = 0 <;>
    simp [validate_one_field_has_value, ht, hs]

theorem check_input_ok_iff (ns : List String) :
    _check_input ns = Except.ok () ↔ ∀ n ∈ ns, n ∈ userInputNames := by
  induction ns with
  | nil => simp [_check_input]
  | cons p rest ih =>
    by_cases hp : p ∈ userInputNames <;> simp [_check_input, hp, ih]

theorem check_input_error_mem (ns : List String) (e : CalcError)
    (h : _check_input ns = Except.error e) :
    ∃ m, e = CalcError.unknownParam m ∧ m ∈ ns ∧ m ∉ userInputNames := by
  induction ns with
  | nil => simp [_check_input] at h
  | cons p rest ih =>
    by_cases hp : p ∈ userInputNames
    · rw [_check_input, if_pos hp] at h
      obtain ⟨m, hme, hmem, hbad⟩ := ih h
      exact ⟨m, hme, List.mem_cons_of_mem p hmem, hbad⟩
    · rw [_check_input, if_neg hp] at h
      refine ⟨p, ?_, List.mem_cons_self p rest, hp⟩
      injection h with h2
      exact h2.symm

theorem check_input_error_of_bad (ns : List String) (n : String)
    (hn : n ∈ ns) (hbad : n ∉ userInputNames) :
    ∃ m, _check_input ns = Except.error (CalcError.unknownParam m)
      ∧ m ∉ userInputNames := by
  induction ns with
  | nil => cases hn
  | cons p rest ih =>
    by_cases hp : p ∈ userInputNames
    · have hrest : n ∈ rest := by
        rcases List.mem_cons.mp hn with h | h
        · exact absurd (h ▸ hp) hbad
        · exact h
      obtain ⟨m, hm, hmbad⟩ := ih hrest
      exact ⟨m, by rw [_check_input, if_pos hp]; exact hm, hmbad⟩
    · exact ⟨p, by rw [_check_input, if_neg hp], hp⟩

/-- Claim C5: constructing a `Calculator` from a user-input mapping that
contains a name outside the `UserInput` field set fails with the
unknown-parameter error, and for a mapping containing only known names the
name check passes. -/
theorem C5_unknown_parameter_check (user inst : List (String × ℝ)) :
    ((∃ n ∈ user.map Prod.fst, n ∉ userInputNames) →
      ∃ m, calculatorInit user inst = Except.error (CalcError.unknownParam m)
        ∧ m ∉ userInputNames)
    ∧ ((∀ n ∈ user.map Prod.fst, n ∈ userInputNames) →
      _check_input (user.map Prod.fst) = Except.ok ()) := by
  constructor
  · rintro ⟨n, hn, hbad⟩
    obtain ⟨m, hm, hmbad⟩ := check_input_error_of_bad _ n hn hbad
    refine ⟨m, ?_, hmbad⟩
    rw [calculatorInit, hm]
    rfl
  · intro h
    exact (check_input_ok_iff _).mpr h

/-- Witness for claim C5: the unknown name `frobnicate` is rejected, and the
known name `bandwidth` passes the check. -/
theorem C5_witness :
    (∃ m, calculatorInit [("frobnicate", (1 : ℝ))] []
        = Except.error (CalcError.unknownParam m) ∧ m ∉ userInputNames)
    ∧ _check_input ([("bandwidth", (2 : ℝ))].map Prod.fst) = Except.ok () :=
  ⟨(C5_unknown_parameter_check [("frobnicate", (1 : ℝ))] []).1
      ⟨"frobnicate", by simp, by simp [userInputNames]⟩,
   (C5_unknown_parameter_check [("bandwidth", (2 : ℝ))] []).2
      (by simp [userInputNames])⟩

/-- Claim C6: for positive area and aperture efficiency the SEFD computation
returns `2 * k_B * T_sys / (area * eta_a)`, and at `T_sys = 270 K`,
`area = pi * (25 m)^2`, `eta_a = 1` the result is approximately
`3.797057313069965e-24` (it lies in `(3.797e-24, 3.7971e-24)`). -/
theorem C6_sefd_calculate (T a e : ℝ) (ha : 0 < a) (he : 0 < e) :
    SEFD.calculate T a e = 2 * kB * T / (a * e)
    ∧ 3.797e-24 < SEFD.calculate 270 (Real.pi * 25 ^ 2) 1
    ∧ SEFD.calculate 270 (Real.pi * 25 ^ 2) 1 < 3.7971e-24 := by
  have h1 : Real.pi < 3.141593 := Real.pi_lt_d6
  have h2 : 3.141592 < Real.pi := Real.pi_gt_d6
  have hpi : (0 : ℝ) < Real.pi := Real.pi_pos
  refine ⟨rfl, ?_, ?_⟩
  · rw [SEFD.calculate, lt_div_iff₀ (by positivity)]
    norm_num [kB]
    nlinarith
  · rw [SEFD.calculate, div_lt_iff₀ (by positivity)]
    norm_num [kB]
    nlinarith

/-- Witness for claim C6: the SEFD formula and numeric bounds instantiated at
the test-case input `T_sys = 270`, `area = pi * 25^2`, `eta_a = 1`. -/
theorem C6_sefd_calculate_witness :
    SEFD.calculate 270 (Real.pi * 25 ^ 2) 1
        = 2 * kB * 270 / (Real.pi * 25 ^ 2 * 1)
    ∧ 3.797e-24 < SEFD.calculate 270 (Real.pi * 25 ^ 2) 1
    ∧ SEFD.calculate 270 (Real.pi * 25 ^ 2) 1 < 3.7971e-24 :=
  C6_sefd_calculate 270 (Real.pi * 25 ^ 2) 1 (by positivity) (by norm_num)

/-- Physics models whose opacity table depends on the observing frequency,
exhibiting that `reset` returns to the construction-time state rather than
the pre-mutation state. -/
def freqPM : PhysicsModels :=
  { atmTatm := fun _ _ _ => 0
  , atmTau := fun f _ _ => f
  , recvT := fun _ => 0 }

/-- Claim C7 (counterexample): a `Calculator` instance that was already
mutated (its observing frequency changed from 100 GHz to 2 Hz) before the
bandwidth mutation: after `set_bandwidth` and `reset()` the stored opacity is
the construction-time value, not its value just before the bandwidth
mutation, so the derived parameters do not equal their pre-mutation values. -/
theorem C7_counterexample :
    ((((Calculator.construct freqPM exampleInputs).set_obs_freq
        { si := 2, unit := SCUnit.hertz }).set_bandwidth
        { si := 1e9, unit := SCUnit.gigahertz }).reset).derived.tau_atm
      ≠ (((Calculator.construct freqPM exampleInputs).set_obs_freq
        { si := 2, unit := SCUnit.hertz })).derived.tau_atm := by
  simp [Calculator.construct, Calculator.set_obs_freq, Calculator.set_bandwidth,
    Calculator.reset, calculateDerivedParameters, freqPM, exampleInputs]
  norm_num

/-- Claim C7 (amended): for every `Calculator` instance whose current inputs
still equal the construction-time snapshot and whose derived parameters are
in sync with them (every freshly constructed instance satisfies both),
mutating the bandwidth through its validated setter and then calling
`reset()` restores every derived parameter (tau_atm, T_atm, T_rx, eta_a,
eta_s, T_sys, sefd, area) exactly; in general `reset()` restores the
construction-time derived values, not those immediately preceding the
mutation. -/
theorem C7_reset_restores (c : Calculator) (v : Qty)
    (horig : c.inputs = c.originalInputs)
    (hsync : c.derived = calculateDerivedParameters c.pm c.inputs) :
    (((c.set_bandwidth v).reset)).derived = c.derived := by
  rw [hsync, horig]
  rfl

/-- Witness for claim C7: the amended statement instantiated at the freshly
constructed example calculator and a 1 GHz bandwidth mutation. -/
theorem C7_reset_restores_witness :
    (((exampleCalc.set_bandwidth
        { si := 1e9, unit := SCUnit.gigahertz }).reset)).derived
      = exampleCalc.derived :=
  C7_reset_restores exampleCalc { si := 1e9, unit := SCUnit.gigahertz } rfl rfl

/-- Claim C8: after construction and after every validated setter call on a
user-settable parameter (bandwidth, observing frequency, polarization count,
weather, elevation, dish radius) the stored derived parameters equal the
full derivation recomputed from the current inputs, and the `t_int` /
`sensitivity` getters leave the state untouched (no recomputation). -/
theorem C8_derived_in_sync (pm : PhysicsModels) (ci : CalculationInputs)
    (c : Calculator) (vb vf ve vd : Qty) (vn vw : ℝ) :
    (Calculator.construct pm ci).derived = calculateDerivedParameters pm ci
    ∧ (c.set_bandwidth vb).derived
        = calculateDerivedParameters (c.set_bandwidth vb).pm (c.set_bandwidth vb).inputs
    ∧ (c.set_obs_freq vf).derived
        = calculateDerivedParameters (c.set_obs_freq vf).pm (c.set_obs_freq vf).inputs
    ∧ (c.set_n_pol vn).derived
        = calculateDerivedParameters (c.set_n_pol vn).pm (c.set_n_pol vn).inputs
    ∧ (c.set_weather vw).derived
        = calculateDerivedParameters (c.set_weather vw).pm (c.set_weather vw).inputs
    ∧ (c.set_elevation ve).derived
        = calculateDerivedParameters (c.set_elevation ve).pm (c.set_elevation ve).inputs
    ∧ (c.set_dish_radius vd).derived
        = calculateDerivedParameters (c.set_dish_radius vd).pm (c.set_dish_radius vd).inputs
    ∧ (c.get_t_int).2 = c
    ∧ (c.get_sensitivity).2 = c :=
  ⟨rfl, rfl, rfl, rfl, rfl, rfl, rfl, rfl, rfl⟩

/-- Claim C9: whatever the stored or supplied quantities,
`calculate_sensitivity` always returns its result converted to mJy and
`calculate_t_integration` always returns its result converted to seconds;
with `update_calculator = true` the converted quantity is exactly the value
written back into the inputs. -/
theorem C9_output_units (c : Calculator) (tOpt sOpt : Option Qty) (upd : Bool) :
    ((c.calculate_sensitivity tOpt upd).1).unit = SCUnit.mJy
    ∧ ((c.calculate_t_integration sOpt upd).1).unit = SCUnit.second
    ∧ ((c.calculate_sensitivity tOpt true).2).inputs.user_input.sensitivity
        = (c.calculate_sensitivity tOpt true).1
    ∧ ((c.calculate_t_integration sOpt true).2).inputs.user_input.t_int
        = (c.calculate_t_integration sOpt true).1 :=
  ⟨rfl, rfl, rfl, rfl⟩

/-- Claim C10: the unknown-parameter-name check at `Calculator` construction
is applied to the user input only — construction never raises the
unknown-parameter error for a name that is not in the user input, so names
appearing only in the instrument setup are never rejected by the name check;
in particular, with an empty user input, construction succeeds for every
instrument-setup mapping. -/
theorem C10_instrument_names_unchecked (user inst : List (String × ℝ)) :
    (∀ n, n ∉ user.map Prod.fst →
      calculatorInit user inst ≠ Except.error (CalcError.unknownParam n))
    ∧ ∃ m, calculatorInit [] inst = Except.ok m := by
  constructor
  · intro n hn hbad
    rw [calculatorInit] at hbad
    cases hcheck : _check_input (user.map Prod.fst) with
    | ok u =>
      rw [hcheck] at hbad
      simp only [Except.bind] at hbad
      rw [configInit] at hbad
      by_cases hcond :
          ((mergeInputs user inst).t_int ≠ 0 ∧ (mergeInputs user inst).sensitivity ≠ 0)
          ∨ ((mergeInputs user inst).t_int = 0 ∧ (mergeInputs user inst).sensitivity = 0)
      · rw [validate_one_field_has_value, if_pos hcond] at hbad
        simp [Except.map] at hbad
      · rw [validate_one_field_has_value, if_neg hcond] at hbad
        simp [Except.map] at hbad
    | error e =>
      rw [hcheck] at hbad
      simp only [Except.bind] at hbad
      injection hbad with he
      obtain ⟨m, hme, hmem, _⟩ := check_input_error_mem _ e hcheck
      rw [he] at hme
      injection hme with hnm
      exact hn (hnm ▸ hmem)
  · refine ⟨mergeInputs [] inst, ?_⟩
    have hck : _check_input (([] : List (String × ℝ)).map Prod.fst)
        = Except.ok () := rfl
    rw [calculatorInit, hck]
    simp only [Except.bind]
    rw [configInit]
    have ht : (mergeInputs [] inst).t_int = 70 := rfl
    have hs : (mergeInputs [] inst).sensitivity = 0 := rfl
    rw [validate_one_field_has_value, if_neg (by rw [ht, hs]; norm_num)]
    rfl

/-- Witness for claim C10: construction with an empty user input and an
instrument setup containing the invalid name `bogus` does not raise the
unknown-parameter error — it succeeds. -/
theorem C10_witness :
    (calculatorInit [] [("bogus", (1 : ℝ))]
        ≠ Except.error (CalcError.unknownParam "bogus"))
    ∧ ∃ m, calculatorInit [] [("bogus", (1 : ℝ))] = Except.ok m :=
  ⟨(C10_instrument_names_unchecked [] [("bogus", (1 : ℝ))]).1 "bogus" (by simp),
   (C10_instrument_names_unchecked [] [("bogus", (1 : ℝ))]).2⟩

/-- Witness for claim C1: the amended sensitivity formula instantiated at the
example calculator with `t_int = 1 s`. -/
theorem C1_sensitivity_formula_witness :
    ((exampleCalc.calculate_sensitivity
        (some { si := 1, unit := SCUnit.second }) true).1).si
      = exampleCalc.derived.sefd / (exampleCalc.derived.eta_s * Real.sqrt
          (exampleCalc.inputs.user_input.n_pol *
            exampleCalc.inputs.user_input.bandwidth.si *
            ({ si := 1, unit := SCUnit.second } : Qty).si))
    ∧ ((exampleCalc.calculate_sensitivity
        (some { si := 1, unit := SCUnit.second }) true).1).unit = SCUnit.mJy
    ∧ 0.159 < (((exampleCalc.calculate_sensitivity
          (some { si := 1, unit := SCUnit.second }) true).1).to
            SCUnit.jansky).value
    ∧ (((exampleCalc.calculate_sensitivity
          (some { si := 1, unit := SCUnit.second }) true).1).to
            SCUnit.jansky).value < 0.16 :=
  C1_sensitivity_formula exampleCalc { si := 1, unit := SCUnit.second } true

/-- Witness for claim C2: the amended integration-time formula instantiated
at the example calculator with sensitivity `15e-5` Jy. -/
theorem C2_t_integration_formula_witness :
    ((exampleCalc.calculate_t_integration
        (some { si := 1.5e-30, unit := SCUnit.jansky }) true).1).si
      = (exampleCalc.derived.sefd /
          (({ si := 1.5e-30, unit := SCUnit.jansky } : Qty).si *
            exampleCalc.derived.eta_s)) ^ 2 /
          (exampleCalc.inputs.user_input.n_pol *
            exampleCalc.inputs.user_input.bandwidth.si)
    ∧ ((exampleCalc.calculate_t_integration
        (some { si := 1.5e-30, unit := SCUnit.jansky }) true).1).unit
      = SCUnit.second
    ∧ 1.1295e6 < ((exampleCalc.calculate_t_integration
          (some { si := 1.5e-30, unit := SCUnit.jansky }) true).1).value
    ∧ ((exampleCalc.calculate_t_integration
          (some { si := 1.5e-30, unit := SCUnit.jansky }) true).1).value
      < 1.1297e6 :=
  C2_t_integration_formula exampleCalc { si := 1.5e-30, unit := SCUnit.jansky } true

/-- Witness for claim C4: the validator accepts the default input
`t_int = 70`, `sensitivity = 0` and the characterizations hold there. -/
theorem C4_one_field_validation_witness :
    (validate_one_field_has_value 70 0 = Except.error CalcError.invalidInput
      ↔ ((70 : ℝ) ≠ 0 ∧ (0 : ℝ) ≠ 0) ∨ ((70 : ℝ) = 0 ∧ (0 : ℝ) = 0))
    ∧ ((∃ p, validate_one_field_has_value 70 0 = Except.ok p)
      ↔ ((70 : ℝ) ≠ 0 ∧ (0 : ℝ) = 0) ∨ ((70 : ℝ) = 0 ∧ (0 : ℝ) ≠ 0)) :=
  C4_one_field_validation 70 0

/-- Witness for claim C8: the in-sync invariant and getter transparency
instantiated at the example calculator and concrete setter arguments. -/
theorem C8_derived_in_sync_witness :
    (Calculator.construct examplePM exampleInputs).derived
        = calculateDerivedParameters examplePM exampleInputs
    ∧ (exampleCalc.set_bandwidth { si := 1e9, unit := SCUnit.gigahertz }).derived
        = calculateDerivedParameters
            (exampleCalc.set_bandwidth { si := 1e9, unit := SCUnit.gigahertz }).pm
            (exampleCalc.set_bandwidth { si := 1e9, unit := SCUnit.gigahertz }).inputs
    ∧ (exampleCalc.set_obs_freq { si := 2e11, unit := SCUnit.gigahertz }).derived
        = calculateDerivedParameters
            (exampleCalc.set_obs_freq { si := 2e11, unit := SCUnit.gigahertz }).pm
            (exampleCalc.set_obs_freq { si := 2e11, unit := SCUnit.gigahertz }).inputs
    ∧ (exampleCalc.set_n_pol 2).derived
        = calculateDerivedParameters (exampleCalc.set_n_pol 2).pm
            (exampleCalc.set_n_pol 2).inputs
    ∧ (exampleCalc.set_weather 25).derived
        = calculateDerivedParameters (exampleCalc.set_weather 25).pm
            (exampleCalc.set_weather 25).inputs
    ∧ (exampleCalc.set_elevation { si := 0.8, unit := SCUnit.degree }).derived
        = calculateDerivedParameters
            (exampleCalc.set_elevation { si := 0.8, unit := SCUnit.degree }).pm
            (exampleCalc.set_elevation { si := 0.8, unit := SCUnit.degree }).inputs
    ∧ (exampleCalc.set_dish_radius { si := 30, unit := SCUnit.metre }).derived
        = calculateDerivedParameters
            (exampleCalc.set_dish_radius { si := 30, unit := SCUnit.metre }).pm
            (exampleCalc.set_dish_radius { si := 30, unit := SCUnit.metre }).inputs
    ∧ (exampleCalc.get_t_int).2 = exampleCalc
    ∧ (exampleCalc.get_sensitivity).2 = exampleCalc :=
  C8_derived_in_sync examplePM exampleInputs exampleCalc
    { si := 1e9, unit := SCUnit.gigahertz }
    { si := 2e11, unit := SCUnit.gigahertz }
    { si := 0.8, unit := SCUnit.degree }
    { si := 30, unit := SCUnit.metre } 2 25

/-- Witness for claim C9: output units and write-back instantiated at the
example calculator with concrete supplied quantities. -/
theorem C9_output_units_witness :
    ((exampleCalc.calculate_sensitivity
        (some { si := 1, unit := SCUnit.second }) true).1).unit = SCUnit.mJy
    ∧ ((exampleCalc.calculate_t_integration
        (some { si := 1.5e-30, unit := SCUnit.jansky }) true).1).unit
      = SCUnit.second
    ∧ ((exampleCalc.calculate_sensitivity
        (some { si := 1, unit := SCUnit.second }) true).2).inputs.user_input.sensitivity
        = (exampleCalc.calculate_sensitivity
            (some { si := 1, unit := SCUnit.second }) true).1
    ∧ ((exampleCalc.calculate_t_integration
        (some { si := 1.5e-30, unit := SCUnit.jansky }) true).2).inputs.user_input.t_int
        = (exampleCalc.calculate_t_integration
            (some { si := 1.5e-30, unit := SCUnit.jansky }) true).1 :=
  C9_output_units exampleCalc (some { si := 1, unit := SCUnit.second })
    (some { si := 1.5e-30, unit := SCUnit.jansky }) true

end AtlastSC
